import Mathlib

/-!
Shallow embedding of the booking coordinator of `soa-backend`
(booking service `main.go`, `auth_middleware.go`, and the event contract of
the restaurants service `main.go`), together with proofs about the claims
of its design specification.

Modelling conventions:
* MySQL tables are lists of rows; the auto-increment counter of `bookings`
  is threaded explicitly (`nextId`).  `REPLACE INTO` on `restaurants_cache`
  is delete-then-insert keyed by the primary key `id`; `NOW()` is an explicit
  `now : Nat` parameter supplied per applied event.
* JSON documents are an inductive `JVal`.  `encoding/json` behaviour that the
  code depends on is embedded faithfully: unmarshalling into a typed struct
  assigns a field only when the value has the matching type, leaves the Go
  zero value otherwise, and the code under scrutiny discards the unmarshal
  error (`_ = json.Unmarshal(...)`), so decoding is total here.
* `go publishRabbitNotification(b)` is a detached task: its outcome is an
  explicit `PublishOutcome` input, and the handler's HTTP result and store
  state are computed independently of it; only the emitted queue messages and
  log lines depend on it, mirroring that the goroutine's only effects are the
  publish and `log.Printf`.
* `time.Time` values are opaque timestamps, embedded as `Int`.
-/

set_option autoImplicit false

namespace SoaBackend

/-- JSON values (the subset exchanged by the services; numbers are the
integral values the services actually produce). -/
inductive JVal where
  | jnull : JVal
  | jbool : Bool → JVal
  | jnum : Int → JVal
  | jstr : String → JVal
  | jarr : List JVal → JVal
  | jobj : List (String × JVal) → JVal

/-- Field lookup in a decoded JSON object.  `encoding/json` assigns a struct
field each time its key occurs, so on duplicate keys the last occurrence
wins. -/
def jlookup (fields : List (String × JVal)) (key : String) : Option JVal :=
  fields.foldl (fun acc kv => if kv.1 = key then some kv.2 else acc) none

/-- Unmarshalling a JSON value into a Go `int64` field: assigned only when the
value is a number, otherwise the field keeps the zero value 0 (the unmarshal
error is discarded by the caller). -/
def jnumField (fields : List (String × JVal)) (key : String) : Int :=
  match jlookup fields key with
  | some (.jnum n) => n
  | _ => 0

/-- Unmarshalling a JSON value into a Go `string` field: assigned only when the
value is a string, otherwise the field keeps the zero value `""`. -/
def jstrField (fields : List (String × JVal)) (key : String) : String :=
  match jlookup fields key with
  | some (.jstr s) => s
  | _ => ""

/-- A row of the `restaurants_cache` table
(`id, name, city, seats, last_seen`). -/
structure CacheRow where
  id : Int
  name : String
  city : String
  seats : Int
  last_seen : Nat
deriving DecidableEq, Repr

/-- The projector's anonymous struct for a `restaurant.created` payload
(`ID int64; Name, City string; Seats int`). -/
structure RestaurantMsg where
  id : Int
  name : String
  city : String
  seats : Int
deriving DecidableEq, Repr

/-- `json.Unmarshal` of the re-marshalled `data` payload into the projector's
created-event struct; on a non-object or mismatched field the Go zero values
remain and the error is discarded. -/
def decodeCreatedData : JVal → RestaurantMsg
  | .jobj fs => ⟨jnumField fs "id", jstrField fs "name", jstrField fs "city", jnumField fs "seats"⟩
  | _ => ⟨0, "", "", 0⟩

/-- `json.Unmarshal` of the re-marshalled `data` payload into the projector's
deleted-event struct `{ ID int64 }`.  When the payload encodes the id as a
JSON string (as the restaurants service does), the assignment fails, the error
is discarded, and `ID` keeps the zero value 0. -/
def decodeDeletedId : JVal → Int
  | .jobj fs => jnumField fs "id"
  | _ => 0

/-- `REPLACE INTO restaurants_cache (id, name, city, seats, last_seen)
VALUES (?, ?, ?, ?, NOW())`: delete any row with the same primary key, then
insert the new row stamped with the current time. -/
def replaceCacheRow (r : RestaurantMsg) (now : Nat) (cache : List CacheRow) : List CacheRow :=
  cache.filter (fun row => row.id != r.id) ++ [⟨r.id, r.name, r.city, r.seats, now⟩]

/-- `DELETE FROM restaurants_cache WHERE id = ?`. -/
def deleteCacheRow (i : Int) (cache : List CacheRow) : List CacheRow :=
  cache.filter (fun row => row.id != i)

/-- The `type` tag of a decoded envelope object: `typ, _ := ev["type"].(string)`
yields the zero value `""` when the key is absent or not a string. -/
def envelopeType (fs : List (String × JVal)) : String :=
  match jlookup fs "type" with
  | some (.jstr s) => s
  | _ => ""

/-- One iteration of `consumeRestaurantEvents` applied to one received
record.  `msg = none` models a record whose bytes fail `json.Unmarshal` into
`map[string]interface{}` (skip and continue); a non-object document also
fails that unmarshal.  `data` defaults to JSON null when absent, and only the
two known kinds touch the cache. -/
def applyEvent (now : Nat) (msg : Option JVal) (cache : List CacheRow) : List CacheRow :=
  match msg with
  | some (.jobj fs) =>
    if envelopeType fs = "restaurant.created" then
      replaceCacheRow (decodeCreatedData ((jlookup fs "data").getD .jnull)) now cache
    else if envelopeType fs = "restaurant.deleted" then
      deleteCacheRow (decodeDeletedId ((jlookup fs "data").getD .jnull)) cache
    else
      cache
  | _ => cache

/-- The consume loop over a finite prefix of the stream: each record carries
the wall-clock instant at which it is applied. -/
def consumeEvents (evs : List (Nat × Option JVal)) (cache : List CacheRow) : List CacheRow :=
  match evs with
  | [] => cache
  | (now, m) :: rest => consumeEvents rest (applyEvent now m cache)

/-- The envelope kind as the projector observes it: `none` when the record
fails to decode as a JSON object, otherwise the string read from `type`
(`""` when the key is absent or not a string). -/
def envelopeKind : Option JVal → Option String
  | some (.jobj fs) => some (envelopeType fs)
  | _ => none

/-- The data columns of the cache, forgetting `last_seen`. -/
def cacheData (cache : List CacheRow) : List (Int × String × String × Int) :=
  cache.map (fun r => (r.id, r.name, r.city, r.seats))

/-- The envelope the restaurants service publishes for `restaurant.created`
(`data` is the `Restaurant` struct, its id a JSON number). -/
def createdEnvelope (i : Int) (name city : String) (seats : Int) : JVal :=
  .jobj [("type", .jstr "restaurant.created"),
         ("data", .jobj [("id", .jnum i), ("name", .jstr name),
                         ("city", .jstr city), ("seats", .jnum seats)])]

/-- The envelope the restaurants service publishes for `restaurant.deleted`:
`data` is `map[string]string{"id": id}`, so the id is a JSON string taken
from the URL path. -/
def deletedEnvelopeFromRestaurantService (idStr : String) : JVal :=
  .jobj [("type", .jstr "restaurant.deleted"),
         ("data", .jobj [("id", .jstr idStr)])]

/-- A `restaurant.deleted` envelope whose `data.id` is a JSON number. -/
def deletedEnvelopeNumeric (i : Int) : JVal :=
  .jobj [("type", .jstr "restaurant.deleted"),
         ("data", .jobj [("id", .jnum i)])]

/-- The `Booking` struct of the booking service (`When time.Time` embedded as
an opaque timestamp). -/
structure Booking where
  id : Int
  restaurant_id : Int
  user : String
  people : Int
  whenTs : Int
deriving DecidableEq, Repr

/-- The booking service's slice of the shared MySQL database: the `bookings`
table with its auto-increment counter, and the `restaurants_cache` table. -/
structure DBState where
  bookings : List Booking
  nextId : Int
  cache : List CacheRow
deriving DecidableEq, Repr

/-- The possible fates of the detached `publishRabbitNotification` goroutine:
each failure point returns early after `log.Printf`. -/
inductive PublishOutcome where
  | ok : PublishOutcome
  | dialErr : PublishOutcome
  | channelErr : PublishOutcome
  | queueDeclareErr : PublishOutcome
  | publishErr : PublishOutcome
deriving DecidableEq, Repr

/-- The payload published to the `email_notifications` queue:
`{"type": "booking.created", "data": <booking>}`. -/
structure NotificationMsg where
  msgType : String
  data : Booking
deriving DecidableEq, Repr

/-- `publishRabbitNotification`: dial, open channel, declare queue, publish.
Returns the messages that reached the queue and the log lines produced; every
error is logged and swallowed. -/
def publishRabbitNotification (b : Booking) (o : PublishOutcome) :
    List NotificationMsg × List String :=
  match o with
  | .dialErr => ([], ["rabbit dial in publish"])
  | .channelErr => ([], ["rabbit channel"])
  | .queueDeclareErr => ([], ["queue declare"])
  | .publishErr => ([], ["rabbit publish err"])
  | .ok => ([⟨"booking.created", b⟩], [])

/-- Everything observable about one `createBooking` request: the HTTP status,
the encoded response body (the echoed decoded request, when any), the database
afterwards, and the effects of the detached notification goroutine. -/
structure CreateOutcome where
  status : Nat
  body : Option Booking
  state : DBState
  published : List NotificationMsg
  log : List String
deriving DecidableEq, Repr

/-- `createBooking`: decode the body (failure → 400 `bad request`); `INSERT
INTO bookings (restaurant_id, user, people, when_ts)` — the store assigns
`nextId` as the row id, which the handler never reads back — then spawn
`go publishRabbitNotification(b)` and answer 201 with the decoded request
body `b` re-encoded (including whatever id the client sent, zero by default).
The store-write failure path (500 `db error`) is not modelled: the store
accepts every insert here, which every claim under study assumes. -/
def createBooking (reqBody : Option Booking) (st : DBState) (o : PublishOutcome) :
    CreateOutcome :=
  match reqBody with
  | none => ⟨400, none, st, [], []⟩
  | some b =>
    let row : Booking := ⟨st.nextId, b.restaurant_id, b.user, b.people, b.whenTs⟩
    let pub := publishRabbitNotification b o
    ⟨201, some b, ⟨st.bookings ++ [row], st.nextId + 1, st.cache⟩, pub.1, pub.2⟩

/-- `getBooking`: `SELECT ... FROM bookings WHERE id = ?`; `none` is rendered
as 404 Not Found.  The query yields the first matching row. -/
def getBooking (i : Int) (st : DBState) : Option Booking :=
  st.bookings.find? (fun b => b.id == i)

/-- One projector iteration acting on the whole database: only the
`restaurants_cache` table is touched. -/
def consumeStep (now : Nat) (msg : Option JVal) (st : DBState) : DBState :=
  ⟨st.bookings, st.nextId, applyEvent now msg st.cache⟩

/-- A Go slice of bookings: `none` is the nil slice (which `encoding/json`
renders as `null`), `some` a non-nil slice. -/
def GoBookingSlice : Type := Option (List Booking)

/-- Go `append` on a booking slice: appending to a nil slice allocates. -/
def goAppend (s : GoBookingSlice) (b : Booking) : GoBookingSlice :=
  match s with
  | none => some [b]
  | some xs => some (xs ++ [b])

/-- `listBookings`: `out := []Booking{}` (a non-nil empty slice), then one
iteration per fetched row; a row whose `Scan` fails is skipped with
`continue`.  Each element of `scannedRows` is the scan outcome of one row. -/
def listBookings (scannedRows : List (Option Booking)) : GoBookingSlice :=
  scannedRows.foldl
    (fun out r =>
      match r with
      | some b => goAppend out b
      | none => out)
    (some [])

/-- `encoding/json` rendering of one booking (structural model; the exact
escaping of the string fields is immaterial to the claims). -/
def encodeBooking (b : Booking) : String :=
  "\x7b\"id\":" ++ toString b.id ++ ",\"restaurant_id\":" ++ toString b.restaurant_id ++
    ",\"user\":\"" ++ b.user ++ "\",\"people\":" ++ toString b.people ++
    ",\"when\":" ++ toString b.whenTs ++ "\x7d"

/-- `encoding/json` rendering of a booking slice: a nil slice becomes `null`,
any non-nil slice a bracketed array. -/
def goEncodeSlice (s : GoBookingSlice) : String :=
  match s with
  | none => "null"
  | some xs => "[" ++ String.intercalate "," (xs.map encodeBooking) ++ "]"

/-- What `jwt.Parse` observes about a presented token string under the shared
HMAC secret: whether the compact serialization is well formed, whether the
declared `alg` header names a registered signing method, the declared `alg`
itself, whether the signature verifies under the secret for that method, and
whether the `exp` claim lies in the past. -/
structure Credential where
  wellFormed : Bool
  knownMethod : Bool
  alg : String
  sigOk : Bool
  expired : Bool
deriving DecidableEq, Repr

/-- The keyfunc's allow-list check `t.Method.Alg()[:2] != "HS"`, i.e. the
declared algorithm must belong to the HMAC family HS256/HS384/HS512. -/
def hsFamily (alg : String) : Bool :=
  alg.take 2 == "HS"

/-- Where `jwt.Parse` stops for a given credential. -/
inductive ParseOutcome where
  | malformedToken : ParseOutcome
  | unknownAlg : ParseOutcome
  | keyfuncReject : ParseOutcome
  | badSignature : ParseOutcome
  | invalidClaims : ParseOutcome
  | valid : ParseOutcome
deriving DecidableEq, Repr

/-- The `jwt.Parse` pipeline with the middleware's keyfunc: parse the compact
form, resolve the declared signing method, run the keyfunc (which rejects any
declared algorithm outside the HS family before any signature check), verify
the signature, then validate the registered claims (`exp`). -/
def jwtParse (c : Credential) : ParseOutcome :=
  if !c.wellFormed then .malformedToken
  else if !c.knownMethod then .unknownAlg
  else if !(hsFamily c.alg) then .keyfuncReject
  else if !c.sigOk then .badSignature
  else if c.expired then .invalidClaims
  else .valid

/-- The middleware's verdict on a request. -/
inductive AuthResult where
  | unauthorized : String → AuthResult
  | ok : AuthResult
deriving DecidableEq, Repr

/-- Splits a character list at its first space, when one occurs. -/
def splitFirstSpace : List Char → Option (List Char × List Char)
  | [] => none
  | c :: cs =>
    if c = ' ' then some ([], cs)
    else
      match splitFirstSpace cs with
      | none => none
      | some (pre, post) => some (c :: pre, post)

/-- Go `strings.SplitN(h, " ", 2)`: everything before the first space, then
the untouched remainder; the whole string when no space occurs. -/
def splitN2 (h : String) : List String :=
  match splitFirstSpace h.toList with
  | none => [h]
  | some (pre, post) => [String.mk pre, String.mk post]

/-- ASCII lower-casing of one character (the scheme comparison only ever
meets ASCII). -/
def asciiLower (c : Char) : Char :=
  if 'A' ≤ c ∧ c ≤ 'Z' then Char.ofNat (c.toNat + 32) else c

/-- Go `strings.ToLower` restricted to its ASCII behaviour. -/
def lowerString (s : String) : String :=
  String.mk (s.toList.map asciiLower)

/-- `jwtAuthMiddleware`: empty `Authorization` header → 401; a shape other
than `Bearer <token>` (case-insensitive scheme) → 401; then the token string
goes through `jwtParse` under the shared secret (`decode` gives the parse
observations for a token string) and anything but a fully valid token → 401.
-/
def jwtAuthMiddleware (decode : String → Credential) (authHeader : String) : AuthResult :=
  if authHeader = "" then .unauthorized "missing Authorization header"
  else if (splitN2 authHeader).length ≠ 2 ∨ lowerString ((splitN2 authHeader).headD "") ≠ "bearer" then
    .unauthorized "invalid Authorization header"
  else if jwtParse (decode ((splitN2 authHeader).getD 1 "")) = .valid then .ok
  else .unauthorized "invalid token"

/-- One routed booking API operation together with its request data. -/
inductive ApiOp where
  | create : Option Booking → PublishOutcome → ApiOp
  | get : Int → ApiOp
  | list : ApiOp

/-- The HTTP status of one request through the router: `jwtAuthMiddleware`
runs first on every `/api` route; only on success does the handler run. -/
def apiStatus (decode : String → Credential) (authHeader : String)
    (op : ApiOp) (st : DBState) : Nat :=
  match jwtAuthMiddleware decode authHeader with
  | .unauthorized _ => 401
  | .ok =>
    match op with
    | .create body o => (createBooking body st o).status
    | .get i =>
      match getBooking i st with
      | some _ => 200
      | none => 404
    | .list => 200

/-! ## Shared lemmas -/

theorem replaceCacheRow_idem (r : RestaurantMsg) (now : Nat) (c : List CacheRow) :
    replaceCacheRow r now (replaceCacheRow r now c) = replaceCacheRow r now c := by
  unfold replaceCacheRow
  simp [List.filter_append, List.filter_filter]

theorem replaceCacheRow_data (r : RestaurantMsg) (n1 n2 : Nat) (c : List CacheRow) :
    cacheData (replaceCacheRow r n2 (replaceCacheRow r n1 c)) =
      cacheData (replaceCacheRow r n1 c) := by
  unfold replaceCacheRow cacheData
  simp [List.filter_append, List.filter_filter]

theorem find_append_fresh (l : List Booking) (row : Booking)
    (h : ∀ r ∈ l, r.id ≠ row.id) :
    (l ++ [row]).find? (fun b => b.id == row.id) = some row := by
  induction l with
  | nil => simp
  | cons a l ih =>
    have ha : a.id ≠ row.id := h a (by simp)
    rw [List.cons_append, List.find?_cons_of_neg _ (by simp [ha])]
    exact ih (fun r hr => h r (by simp [hr]))

theorem jwtParse_valid_iff (c : Credential) :
    jwtParse c = .valid ↔
      (c.wellFormed = true ∧ c.knownMethod = true ∧ hsFamily c.alg = true ∧
        c.sigOk = true ∧ c.expired = false) := by
  unfold jwtParse
  cases hw : c.wellFormed <;> cases hk : c.knownMethod <;>
    cases ha : hsFamily c.alg <;> cases hs : c.sigOk <;> cases he : c.expired <;>
    simp

theorem jwtParse_keyfunc_rejects_first (c : Credential) (ha : hsFamily c.alg = false)
    (hw : c.wellFormed = true) (hk : c.knownMethod = true) :
    jwtParse c = .keyfuncReject := by
  unfold jwtParse
  rw [hw, hk, ha]
  simp

/-! ## Claims -/

/-- Claim C1, the failing behaviour made concrete.  Against an empty store,
`createBooking` on the spec's scenario body (no client-supplied id, so the
decoded id is 0) answers 201 and echoes the request with id 0, while the
store assigned id 1 to the inserted row; `getBooking` on the returned id 0
yields no row (404 Not Found), so Create does not return the persisted
Booking with its store-assigned id and Create-then-Get on the returned id
fails. -/
theorem createBooking_echoes_client_id_not_assigned :
    (createBooking (some ⟨0, 1, "alice", 2, 1762801200⟩) ⟨[], 1, []⟩ .ok).status = 201 ∧
    (createBooking (some ⟨0, 1, "alice", 2, 1762801200⟩) ⟨[], 1, []⟩ .ok).body =
      some ⟨0, 1, "alice", 2, 1762801200⟩ ∧
    (createBooking (some ⟨0, 1, "alice", 2, 1762801200⟩) ⟨[], 1, []⟩ .ok).state.bookings =
      [⟨1, 1, "alice", 2, 1762801200⟩] ∧
    getBooking 0 (createBooking (some ⟨0, 1, "alice", 2, 1762801200⟩) ⟨[], 1, []⟩ .ok).state =
      none := by
  decide

/-- Claim C2 is false of the code: a request that decodes with party size 0
is not rejected with 400 — it is answered 201 and its row is written. -/
theorem createBooking_accepts_nonpositive_party :
    (createBooking (some ⟨0, 1, "bob", 0, 100⟩) ⟨[], 1, []⟩ .ok).status = 201 ∧
    (createBooking (some ⟨0, 1, "bob", 0, 100⟩) ⟨[], 1, []⟩ .ok).status ≠ 400 ∧
    (createBooking (some ⟨0, 1, "bob", 0, 100⟩) ⟨[], 1, []⟩ .ok).state.bookings =
      [⟨1, 1, "bob", 0, 100⟩] := by
  decide

/-- Claim C2 as amended: `createBooking` performs no party-size validation.
Any request body that JSON-decodes — party size ≤ 0 included — is accepted
with 201 and its row written; only a body that fails to decode yields 400,
and then nothing is written. -/
theorem createBooking_no_partySize_validation (b : Booking) (st : DBState)
    (o : PublishOutcome) (_hps : b.people ≤ 0) :
    (createBooking (some b) st o).status = 201 ∧
    (createBooking (some b) st o).state.bookings =
      st.bookings ++ [⟨st.nextId, b.restaurant_id, b.user, b.people, b.whenTs⟩] ∧
    (createBooking none st o).status = 400 ∧
    (createBooking none st o).state = st :=
  ⟨rfl, rfl, rfl, rfl⟩

theorem createBooking_no_partySize_validation_witness :
    (0 : Int) ≤ 0 ∧
      ((createBooking (some ⟨0, 1, "bob", 0, 100⟩) ⟨[], 1, []⟩ .ok).status = 201 ∧
        (createBooking (some ⟨0, 1, "bob", 0, 100⟩) ⟨[], 1, []⟩ .ok).state.bookings =
          [] ++ [⟨1, 1, "bob", 0, 100⟩] ∧
        (createBooking none ⟨[], 1, []⟩ .ok).status = 400 ∧
        (createBooking none ⟨[], 1, []⟩ .ok).state = ⟨[], 1, []⟩) :=
  ⟨by decide,
    createBooking_no_partySize_validation ⟨0, 1, "bob", 0, 100⟩ ⟨[], 1, []⟩ .ok (by decide)⟩

/-- Claim C5, the failing behaviour made concrete.  Running the projector over
`created(id=5,"A")`, an unrelated `created(id=7)`, `created(id=5,"B")`, and
then the `restaurant.deleted` envelope exactly as the restaurants service
produces it (`data.id` a JSON *string*), the deleted payload fails to decode
into the projector's `int64` field, the discarded-error decode leaves id 0,
the `DELETE` targets id 0, and the cache entry for id 5 survives — the claim
demands no entry for id 5 remain. -/
theorem projector_misses_string_id_delete :
    consumeEvents
      [(1, some (createdEnvelope 5 "A" "X" 10)),
        (2, some (createdEnvelope 7 "Other" "Y" 3)),
        (3, some (createdEnvelope 5 "B" "X" 10)),
        (4, some (deletedEnvelopeFromRestaurantService "5"))] [] =
      [⟨7, "Other", "Y", 3, 2⟩, ⟨5, "B", "X", 10, 3⟩] ∧
    decodeDeletedId (.jobj [("id", .jstr "5")]) = 0 ∧
    (consumeEvents
      [(1, some (createdEnvelope 5 "A" "X" 10)),
        (2, some (createdEnvelope 7 "Other" "Y" 3)),
        (3, some (createdEnvelope 5 "B" "X" 10)),
        (4, some (deletedEnvelopeFromRestaurantService "5"))] []).filter
        (fun r => r.id == 5) = [⟨5, "B", "X", 10, 3⟩] := by
  decide

/-- Claim C3: any request whose bearer token is expired, or whose declared
signing algorithm lies outside the allow-listed HMAC family, is answered 401
by every booking API operation — never 400, never success — and when the
token is otherwise well formed the rejection happens at the keyfunc stage,
i.e. on the declared algorithm before signature verification. -/
theorem expired_or_nonHmac_always_unauthorized
    (decode : String → Credential) (authHeader tok : String) (op : ApiOp) (st : DBState)
    (hne : authHeader ≠ "")
    (hsplit : splitN2 authHeader = ["Bearer", tok])
    (hbad : (decode tok).expired = true ∨ hsFamily (decode tok).alg = false) :
    apiStatus decode authHeader op st = 401 ∧
    apiStatus decode authHeader op st ≠ 400 ∧
    apiStatus decode authHeader op st ≠ 200 ∧
    apiStatus decode authHeader op st ≠ 201 ∧
    (hsFamily (decode tok).alg = false → (decode tok).wellFormed = true →
      (decode tok).knownMethod = true → jwtParse (decode tok) = .keyfuncReject) := by
  have hnv : ¬jwtParse (decode tok) = .valid := by
    rw [jwtParse_valid_iff]
    rcases hbad with h | h <;> simp [h]
  have hmw : jwtAuthMiddleware decode authHeader = .unauthorized "invalid token" := by
    unfold jwtAuthMiddleware
    rw [if_neg hne, hsplit]
    rw [if_neg (by simp [lowerString, asciiLower])]
    rw [if_neg (by simpa using hnv)]
  have hstat : apiStatus decode authHeader op st = 401 := by
    unfold apiStatus
    rw [hmw]
  refine ⟨hstat, by rw [hstat]; decide, by rw [hstat]; decide, by rw [hstat]; decide, ?_⟩
  intro ha hw hk
  exact jwtParse_keyfunc_rejects_first _ ha hw hk

theorem expired_or_nonHmac_always_unauthorized_witness :
    splitN2 "Bearer abc" = ["Bearer", "abc"] ∧
    hsFamily "RS256" = false ∧
    apiStatus (fun _ => ⟨true, true, "RS256", true, false⟩) "Bearer abc" .list ⟨[], 1, []⟩ = 401 :=
  ⟨by decide, by decide,
    (expired_or_nonHmac_always_unauthorized (fun _ => ⟨true, true, "RS256", true, false⟩)
      "Bearer abc" "abc" .list ⟨[], 1, []⟩ (by decide) (by decide) (Or.inr (by decide))).1⟩

/-- Claim C4: for the same decoded request and store state, every publish
outcome of the detached notification goroutine — success, dial failure,
channel failure, queue-declare failure, publish failure — yields the same
HTTP status, the same response body, and the same database afterwards, and
the freshly inserted row is retrievable through `getBooking` under its
store-assigned id in every run.  Only the emitted queue messages and log
lines (the goroutine's own effects) may differ. -/
theorem notification_outcome_invisible_to_request (b : Booking) (st : DBState)
    (o1 o2 : PublishOutcome)
    (hfresh : ∀ r ∈ st.bookings, r.id ≠ st.nextId) :
    (createBooking (some b) st o1).status = (createBooking (some b) st o2).status ∧
    (createBooking (some b) st o1).body = (createBooking (some b) st o2).body ∧
    (createBooking (some b) st o1).state = (createBooking (some b) st o2).state ∧
    (∀ i, getBooking i (createBooking (some b) st o1).state =
      getBooking i (createBooking (some b) st o2).state) ∧
    getBooking st.nextId (createBooking (some b) st o1).state =
      some ⟨st.nextId, b.restaurant_id, b.user, b.people, b.whenTs⟩ := by
  refine ⟨rfl, rfl, rfl, fun i => rfl, ?_⟩
  exact find_append_fresh st.bookings ⟨st.nextId, b.restaurant_id, b.user, b.people, b.whenTs⟩ hfresh

theorem notification_outcome_invisible_to_request_witness :
    (createBooking (some ⟨0, 1, "alice", 2, 5⟩) ⟨[], 1, []⟩ .ok).state =
      (createBooking (some ⟨0, 1, "alice", 2, 5⟩) ⟨[], 1, []⟩ .dialErr).state ∧
    getBooking 1 (createBooking (some ⟨0, 1, "alice", 2, 5⟩) ⟨[], 1, []⟩ .ok).state =
      some ⟨1, 1, "alice", 2, 5⟩ :=
  ⟨(notification_outcome_invisible_to_request ⟨0, 1, "alice", 2, 5⟩ ⟨[], 1, []⟩ .ok .dialErr
      (by simp)).2.2.1,
    (notification_outcome_invisible_to_request ⟨0, 1, "alice", 2, 5⟩ ⟨[], 1, []⟩ .ok .dialErr
      (by simp)).2.2.2.2⟩

/-- Claim C6: applying any `restaurant.created` event twice (at the same
clock reading, since `REPLACE` stamps `last_seen` with `NOW()`) leaves the
cache exactly as one application does; and even across different clock
readings the second application changes nothing but the `last_seen` stamp —
the data columns coincide.  The upsert keyed by the embedded id is
idempotent. -/
theorem created_event_idempotent (m : Option JVal) (now n1 n2 : Nat) (c : List CacheRow)
    (h : envelopeKind m = some "restaurant.created") :
    applyEvent now m (applyEvent now m c) = applyEvent now m c ∧
    cacheData (applyEvent n2 m (applyEvent n1 m c)) = cacheData (applyEvent n1 m c) := by
  cases m with
  | none => simp [envelopeKind] at h
  | some v =>
    cases v with
    | jobj fs =>
      have htyp : envelopeType fs = "restaurant.created" := by
        simpa [envelopeKind] using h
      constructor
      · simp only [applyEvent, htyp, if_pos]
        exact replaceCacheRow_idem _ _ _
      · simp only [applyEvent, htyp, if_pos]
        exact replaceCacheRow_data _ _ _ _
    | jnull => simp [envelopeKind] at h
    | jbool b => simp [envelopeKind] at h
    | jnum n => simp [envelopeKind] at h
    | jstr s => simp [envelopeKind] at h
    | jarr xs => simp [envelopeKind] at h

theorem created_event_idempotent_witness :
    envelopeKind (some (createdEnvelope 5 "A" "X" 10)) = some "restaurant.created" ∧
    applyEvent 1 (some (createdEnvelope 5 "A" "X" 10))
        (applyEvent 1 (some (createdEnvelope 5 "A" "X" 10)) [⟨9, "Z", "W", 4, 0⟩]) =
      applyEvent 1 (some (createdEnvelope 5 "A" "X" 10)) [⟨9, "Z", "W", 4, 0⟩] :=
  ⟨by decide,
    (created_event_idempotent (some (createdEnvelope 5 "A" "X" 10)) 1 2 3 [⟨9, "Z", "W", 4, 0⟩]
      (by decide)).1⟩

/-- Claim C7: a `restaurant.deleted` event whose payload carries (as a JSON
number, the type the projector's struct decodes) an id `k` with no cache
entry leaves the cache unchanged; no error is surfaced — the handler
discards the `Exec` result — and the consume loop proceeds to the next
record as if the event had not occurred. -/
theorem deleted_event_absent_id_noop (k : Int) (now : Nat) (c : List CacheRow)
    (rest : List (Nat × Option JVal))
    (h : ∀ r ∈ c, r.id ≠ k) :
    applyEvent now (some (deletedEnvelopeNumeric k)) c = c ∧
    consumeEvents ((now, some (deletedEnvelopeNumeric k)) :: rest) c = consumeEvents rest c := by
  have hap : applyEvent now (some (deletedEnvelopeNumeric k)) c = c := by
    show deleteCacheRow k c = c
    unfold deleteCacheRow
    rw [List.filter_eq_self]
    intro r hr
    simpa using h r hr
  exact ⟨hap, by simp [consumeEvents, hap]⟩

theorem deleted_event_absent_id_noop_witness :
    (∀ r ∈ [(⟨9, "Z", "W", 4, 0⟩ : CacheRow)], r.id ≠ 5) ∧
    applyEvent 1 (some (deletedEnvelopeNumeric 5)) [⟨9, "Z", "W", 4, 0⟩] =
      [⟨9, "Z", "W", 4, 0⟩] :=
  ⟨by decide,
    (deleted_event_absent_id_noop 5 1 [⟨9, "Z", "W", 4, 0⟩] [] (by decide)).1⟩

/-- Claim C8: a record that fails to decode as a JSON object envelope, and a
decoded envelope whose kind is neither `restaurant.created` nor
`restaurant.deleted`, leave the cache untouched, raise no error, and the
consume loop continues with the next record. -/
theorem undecodable_or_unknown_kind_noop (m : Option JVal) (now : Nat) (c : List CacheRow)
    (rest : List (Nat × Option JVal))
    (h : envelopeKind m = none ∨
      ∃ s, envelopeKind m = some s ∧ s ≠ "restaurant.created" ∧ s ≠ "restaurant.deleted") :
    applyEvent now m c = c ∧
    consumeEvents ((now, m) :: rest) c = consumeEvents rest c := by
  have hap : applyEvent now m c = c := by
    rcases h with h | ⟨s, hs, hs1, hs2⟩
    · cases m with
      | none => rfl
      | some v => cases v <;> first | rfl | simp [envelopeKind] at h
    · cases m with
      | none => rfl
      | some v =>
        cases v with
        | jobj fs =>
          have htyp : envelopeType fs = s := by simpa [envelopeKind] using hs
          simp [applyEvent, htyp, hs1, hs2]
        | jnull => rfl
        | jbool b => rfl
        | jnum n => rfl
        | jstr s => rfl
        | jarr xs => rfl
  exact ⟨hap, by simp [consumeEvents, hap]⟩

theorem undecodable_or_unknown_kind_noop_witness :
    envelopeKind (some (.jobj [("type", .jstr "restaurant.updated")])) =
      some "restaurant.updated" ∧
    applyEvent 1 (some (.jobj [("type", .jstr "restaurant.updated")])) [⟨9, "Z", "W", 4, 0⟩] =
      [⟨9, "Z", "W", 4, 0⟩] :=
  ⟨by decide,
    (undecodable_or_unknown_kind_noop (some (.jobj [("type", .jstr "restaurant.updated")]))
      1 [⟨9, "Z", "W", 4, 0⟩] []
      (Or.inr ⟨"restaurant.updated", by decide, by decide, by decide⟩)).1⟩

/-- Claim C9: one projector step writes only the `restaurants_cache` table —
the `bookings` table and its auto-increment counter are untouched — and the
`createBooking` handler writes only `bookings`, never the cache.  (`getBooking`
and `listBookings` run single `SELECT` statements and are embedded as pure
reads of the state, so they modify neither table.) -/
theorem projector_api_frame_separation (now : Nat) (msg : Option JVal) (st : DBState)
    (reqBody : Option Booking) (o : PublishOutcome) :
    (consumeStep now msg st).bookings = st.bookings ∧
    (consumeStep now msg st).nextId = st.nextId ∧
    (createBooking reqBody st o).state.cache = st.cache := by
  refine ⟨rfl, rfl, ?_⟩
  cases reqBody <;> rfl

theorem listBookings_fold (rows : List (Option Booking)) (acc : List Booking) :
    rows.foldl
        (fun out r =>
          match r with
          | some b => goAppend out b
          | none => out)
        (some acc) =
      some (acc ++ rows.filterMap id) := by
  induction rows generalizing acc with
  | nil => simp
  | cons r rows ih =>
    cases r with
    | none => simpa using ih acc
    | some b => simpa [goAppend] using ih (acc ++ [b])

theorem goEncodeSlice_some_ne_null (xs : List Booking) : goEncodeSlice (some xs) ≠ "null" := by
  intro hcontra
  have hd := congrArg (fun t => t.data.head?) hcontra
  simp only [goEncodeSlice, String.data_append] at hd
  simp at hd

/-- Claim C10: `listBookings` renders a JSON array for every store state —
the empty store yields `[]`, never `null`, because the slice is initialised
non-nil — with exactly one element, in order, for each fetched row whose
column scan succeeds; rows whose scan fails are silently skipped. -/
theorem listBookings_encodes_array (rows : List (Option Booking)) :
    listBookings rows = some (rows.filterMap id) ∧
    goEncodeSlice (listBookings rows) ≠ "null" ∧
    goEncodeSlice (listBookings []) = "[]" := by
  have h : listBookings rows = some (rows.filterMap id) := by
    simpa [listBookings] using listBookings_fold rows []
  refine ⟨h, ?_, by decide⟩
  rw [h]
  exact goEncodeSlice_some_ne_null _

end SoaBackend
